import Mathlib

/-
Verification development for the rteval database backend
(src/server/parser/pgsql.c).  The C functions are shallowly embedded as
pure Lean functions: the PostgreSQL connection is replaced by explicit
state (a `Store` of inserted parameter tuples, a submission-queue table,
a systems/hostnames database) together with oracle inputs standing for
the out-of-process behaviour of the database server (whether PQprepare
succeeds, what each PQexecPrepared execution returns, whether a PQexec
fails).  XML documents arrive at these functions already parsed by
libxml2; they are embedded as the structured data the C code reads out
of them via xmlGetAttrValue / xmlExtractContent / foreach_xmlnode.
-/

set_option maxRecDepth 8000

namespace RtevalPgsql

/-! Data model of the sqldata XML document consumed by pgsql_INSERT.

A field tag contributes its fid attribute (atoi_nullsafe of the
attribute text; an absent attribute gives 0, which atoi_nullsafe also
returns for NULL) and its element content (the field name).  A value
tag contributes its fid attribute (none when the attribute is absent,
mirroring xmlGetAttrValue returning NULL) and the string
sqldataExtractContent produces for it (the plain content, the
serialized xmlblob, or the sha1 digest -- that helper lives outside
this file's source and only its output string matters here). -/

structure SqlField where
  fid : Int
  name : String
deriving Repr, DecidableEq

structure SqlValue where
  fid : Option Int
  content : String
deriving Repr, DecidableEq

abbrev SqlRecord := List SqlValue

/-- Embedding of the sqldata document: the table and key attributes of
the root tag (none when the attribute is missing) and the contents of
the fields and records sections (none when the tag is missing). -/
structure SqlData where
  table : Option String
  key : Option String
  fields : Option (List SqlField)
  records : Option (List SqlRecord)
deriving Repr, DecidableEq

/-- Truncation of a C int stored into an unsigned int, as happens when
the atoi result of a fid attribute is written into the unsigned
field_idx array. -/
def wrap32 (z : Int) : Nat := (z % (2 ^ 32 : Int)).toNat

/-- The field_idx array of pgsql_INSERT: entry p holds the fid
attribute of the p-th declared field; the array is calloc'd with
fieldcnt+1 entries, so the entry at index fieldcnt (never written by
the fill loop) is 0. -/
def fieldIdx (fields : List SqlField) (p : Nat) : Nat :=
  match fields.get? p with
  | some f => wrap32 f.fid
  | none => 0

/-- The per-record value-collection loop of pgsql_INSERT (the
foreach_xmlnode over value tags).  `i` is the running count of
accepted values, `ar` the value_ar array (none = NULL slot).  The loop
breaks once i exceeds fieldcnt; a value whose fid attribute is absent
or negative is skipped; otherwise the extracted content is stored at
index field_idx[i] -- the fid of the i-th declared field, NOT the
value's own fid.  (When field_idx[i] is at or beyond fieldcnt the C
code writes past the calloc'd value_ar; the theorems below only
exercise inputs whose declared fids stay in range.) -/
def collectLoop (fields : List SqlField) (fieldcnt : Nat) :
    List SqlValue → Nat → (Nat → Option String) → (Nat → Option String)
  | [], _, ar => ar
  | v :: vs, i, ar =>
    if fieldcnt < i then ar
    else
      match v.fid with
      | none => collectLoop fields fieldcnt vs i ar
      | some fid =>
        if fid < 0 then collectLoop fields fieldcnt vs i ar
        else
          collectLoop fields fieldcnt vs (i + 1)
            (fun j => if j = fieldIdx fields i then some v.content else ar j)

/-- Parameter tuple handed to PQexecPrepared for one record: the first
fieldcnt entries of value_ar after the collection loop. -/
def recordParams (fields : List SqlField) (rec : SqlRecord) : List (Option String) :=
  (List.range fields.length).map
    (collectLoop fields fields.length rec 0 (fun _ => none))

/-- Rows physically inserted so far by the database, each the parameter
tuple of one successfully executed INSERT. -/
structure Store where
  rows : List (List (Option String))
deriving Repr, DecidableEq

/-- Outcome the database server gives one PQexecPrepared call: ok
carries the RETURNING value PQgetvalue(dbres,0,0) would yield and the
OID PQoidValue would yield (0 when the table has no OIDs); err stands
for any result status other than the expected one. -/
inductive ExecOut where
  | ok (keyval : String) (oid : Nat)
  | err
deriving Repr, DecidableEq

/-- Entry appended to the eurephiaVALUES result for one successful
execution: under the key field's name the RETURNING value when the key
attribute is set, otherwise the OID rendered in decimal under the
fixed name oid. -/
def resultEntry (key : Option String) (keyval : String) (oid : Nat) : String × String :=
  match key with
  | some k => (k, keyval)
  | none => ("oid", toString oid)

/-- Result entry determined by an oracle outcome (junk on err, which
the lemmas never reach). -/
def entryOf (key : Option String) : ExecOut → String × String
  | ExecOut.ok kv oid => resultEntry key kv oid
  | ExecOut.err => ("", "")

/-- The record loop of pgsql_INSERT: for each record build the
parameter tuple, execute the prepared statement (oracle outcome k for
the k-th execution), and on the expected status append the row to the
store and the entry to the result; on any other status free the result
and return NULL at once, leaving the store as it is. -/
def insertLoop (key : Option String) (fields : List SqlField) (oracle : Nat → ExecOut) :
    List SqlRecord → Nat → List (String × String) → Store →
      Option (List (String × String)) × Store
  | [], _, acc, st => (some acc, st)
  | r :: rs, k, acc, st =>
    match oracle k with
    | ExecOut.err => (none, st)
    | ExecOut.ok kv oid =>
      insertLoop key fields oracle rs (k + 1) (acc ++ [resultEntry key kv oid])
        (Store.mk (st.rows ++ [recordParams fields r]))

/-- Embedding of pgsql_INSERT: reject a document missing the table
attribute or the fields or records tag, prepare the statement once
(prepOK is the server's verdict; on failure return NULL before any
execution), then run the record loop. -/
def pgsql_INSERT (doc : SqlData) (prepOK : Bool) (oracle : Nat → ExecOut)
    (st : Store) : Option (List (String × String)) × Store :=
  match doc.table with
  | none => (none, st)
  | some _ =>
    match doc.fields, doc.records with
    | some fl, some recs =>
      if prepOK then insertLoop doc.key fl oracle recs 0 [] st
      else (none, st)
    | some _, none => (none, st)
    | none, _ => (none, st)

/-- Binding described by the specification, for comparison with the
code's recordParams: parameter position j receives the record's value
whose fid equals the fid of the j-th declared field. -/
def specBindByFid (fields : List SqlField) (rec : SqlRecord) : List (Option String) :=
  fields.map (fun f => (rec.find? (fun v => v.fid == some f.fid)).map SqlValue.content)

/-- Declared fields used by the C1 failing input: fid 0 named a, fid 1
named b. -/
def c1fields : List SqlField := [SqlField.mk 0 "a", SqlField.mk 1 "b"]

/-- Record of the C1 failing input: its values arrive in the order fid
1 then fid 0, i.e. not in field-id order. -/
def c1record : SqlRecord := [SqlValue.mk (some 1) "Y", SqlValue.mk (some 0) "X"]

/-- C1: the code places each value by its position in the record (at
the parameter index given by the positionally corresponding declared
field's fid) and ignores the value's own fid, so on a record whose
values arrive out of field-id order the bound tuple differs from the
field-id-matched tuple the claim describes: parameter 1 receives "Y"
(the value carrying fid 1) although the first declared field has fid 0
and the claim demands "X". -/
theorem C1_binding_ignores_value_fid :
    recordParams c1fields c1record = [some "Y", some "X"] ∧
    specBindByFid c1fields c1record = [some "X", some "Y"] ∧
    recordParams c1fields c1record ≠ specBindByFid c1fields c1record := by
  refine ⟨by decide, by decide, by decide⟩

/-- Document of the C4 counterexample: two declared fields with fids 0
and 1, one record whose second value carries fid 5, which is not among
the declared fids. -/
def c4doc : SqlData :=
  SqlData.mk (some "t") none (some [SqlField.mk 0 "a", SqlField.mk 1 "b"])
    (some [[SqlValue.mk (some 0) "x", SqlValue.mk (some 5) "y"]])

/-- C4 counterexample: on a record containing a value whose fid (5) is
not among the declared fids, pgsql_INSERT does not fail with a
malformed-input error -- it executes the statement for the record and
returns a success result, the row having been inserted into the
store. -/
theorem C4_counterexample_unknown_fid_executes :
    pgsql_INSERT c4doc true (fun _ => ExecOut.ok "k" 7) (Store.mk [])
      = (some [("oid", "7")], Store.mk [[some "x", some "y"]]) ∧
    (pgsql_INSERT c4doc true (fun _ => ExecOut.ok "k" 7) (Store.mk [])).fst ≠ none := by
  refine ⟨by decide, by decide⟩

/-- Loop lemma: when every execution from index k on returns the
expected status, the record loop succeeds, appending one result entry
and one stored row per record. -/
theorem insertLoop_allok (key : Option String) (fields : List SqlField)
    (oracle : Nat → ExecOut)
    (hok : ∀ i, ∃ kv oid, oracle i = ExecOut.ok kv oid) :
    ∀ (rs : List SqlRecord) (k : Nat) (acc : List (String × String)) (st : Store),
      insertLoop key fields oracle rs k acc st
        = (some (acc ++ (List.enumFrom k rs).map (fun p => entryOf key (oracle p.1))),
           Store.mk (st.rows ++ rs.map (recordParams fields))) := by
  intro rs
  induction rs with
  | nil => intro k acc st; simp [insertLoop]
  | cons r rs ih =>
    intro k acc st
    obtain ⟨kv, oid, h⟩ := hok k
    simp only [insertLoop, h, ih, List.enumFrom_cons, List.map_cons, entryOf]
    simp

/-- Loop lemma: if the executions before relative index j return the
expected status and the one at j does not, the record loop aborts at
j, returns NULL, and the store keeps exactly the rows of the first j
records on top of what it already had. -/
theorem insertLoop_failfast (key : Option String) (fields : List SqlField)
    (oracle : Nat → ExecOut) :
    ∀ (j : Nat) (rs : List SqlRecord) (k : Nat) (acc : List (String × String)) (st : Store),
      j < rs.length →
      (∀ i, i < j → ∃ kv oid, oracle (k + i) = ExecOut.ok kv oid) →
      oracle (k + j) = ExecOut.err →
      insertLoop key fields oracle rs k acc st
        = (none, Store.mk (st.rows ++ (rs.take j).map (recordParams fields))) := by
  intro j
  induction j with
  | zero =>
    intro rs k acc st hlen _hok herr
    match rs, hlen with
    | r :: rs, _ =>
      simp only [Nat.add_zero] at herr
      simp [insertLoop, herr]
  | succ j ih =>
    intro rs k acc st hlen hok herr
    match rs, hlen with
    | r :: rs, hlen =>
      obtain ⟨kv, oid, h0⟩ := hok 0 (Nat.succ_pos j)
      rw [Nat.add_zero] at h0
      simp only [insertLoop, h0]
      rw [ih rs (k + 1) _ _ (by simpa using hlen)
        (fun i hi => by
          have e : k + 1 + i = k + (i + 1) := by omega
          rw [e]; exact hok (i + 1) (by omega))
        (by have e : k + 1 + j = k + (j + 1) := by omega
            rw [e]; exact herr)]
      simp

/-- C3: with more than one record, if execution of record k+1 (0-based
index k here) is the first not returning the expected status, the
insert aborts there, the whole result set is discarded (NULL is
returned, no partial list), and the rows already inserted for the
earlier records remain in the store, unretracted. -/
theorem C3_failfast_no_rollback (t : String) (key : Option String)
    (fl : List SqlField) (recs : List SqlRecord) (st : Store)
    (oracle : Nat → ExecOut) (j : Nat)
    (_hsize : 1 < recs.length) (hj : j < recs.length)
    (hok : ∀ i, i < j → ∃ kv oid, oracle i = ExecOut.ok kv oid)
    (herr : oracle j = ExecOut.err) :
    pgsql_INSERT (SqlData.mk (some t) key (some fl) (some recs)) true oracle st
      = (none, Store.mk (st.rows ++ (recs.take j).map (recordParams fl))) := by
  simp only [pgsql_INSERT, if_pos rfl]
  exact insertLoop_failfast key fl oracle j recs 0 [] st hj
    (fun i hi => by simpa using hok i hi) (by simpa using herr)

/-- Witness for C3 at a concrete input: two one-value records, the
first execution succeeds, the second fails; the call returns NULL and
the store holds exactly the first record's row. -/
theorem C3_failfast_no_rollback_witness :
    pgsql_INSERT
        (SqlData.mk (some "t") none (some [SqlField.mk 0 "a"])
          (some [[SqlValue.mk (some 0) "u"], [SqlValue.mk (some 0) "v"]]))
        true (fun i => if i = 0 then ExecOut.ok "r" 3 else ExecOut.err)
        (Store.mk [])
      = (none, Store.mk [[some "u"]]) := by
  have h := C3_failfast_no_rollback "t" none [SqlField.mk 0 "a"]
    [[SqlValue.mk (some 0) "u"], [SqlValue.mk (some 0) "v"]] (Store.mk [])
    (fun i => if i = 0 then ExecOut.ok "r" 3 else ExecOut.err) 1
    (by decide) (by decide)
    (fun i hi => by
      match i, hi with
      | 0, _ => exact ⟨"r", 3, rfl⟩)
    rfl
  rw [h]
  decide

/-- C5: when every execution returns the expected status, the insert
succeeds with exactly one result entry per record, in record order;
entry i is, when the key attribute is set, the key value the store
generated for execution i under the key field's name, and otherwise
the store-assigned OID of execution i (the literal 0 when the store
supplies none) in decimal under the fixed name oid. -/
theorem C5_result_per_record (t : String) (key : Option String)
    (fl : List SqlField) (recs : List SqlRecord) (st : Store)
    (oracle : Nat → ExecOut)
    (hok : ∀ i, ∃ kv oid, oracle i = ExecOut.ok kv oid) :
    ∃ l, pgsql_INSERT (SqlData.mk (some t) key (some fl) (some recs)) true oracle st
        = (some l, Store.mk (st.rows ++ recs.map (recordParams fl))) ∧
      l.length = recs.length ∧
      ∀ i, i < recs.length → l.get? i = some (entryOf key (oracle i)) := by
  refine ⟨(List.enumFrom 0 recs).map (fun p => entryOf key (oracle p.1)), ?_, ?_, ?_⟩
  · simp only [pgsql_INSERT, if_pos rfl]
    rw [insertLoop_allok key fl oracle hok recs 0 [] st]
    simp
  · simp [List.enumFrom_length]
  · intro i hi
    rw [List.get?_eq_getElem?, List.getElem?_map, List.getElem?_enumFrom]
    simp [List.getElem?_eq_getElem hi]

/-- Witness for C5 at a concrete input: one record, key attribute set
to syskey, the store generates the value 42; the result is the single
entry (syskey, 42). -/
theorem C5_result_per_record_witness :
    ∃ l, pgsql_INSERT
          (SqlData.mk (some "systems") (some "syskey") (some [SqlField.mk 0 "sysid"])
            (some [[SqlValue.mk (some 0) "abc"]]))
          true (fun _ => ExecOut.ok "42" 0) (Store.mk [])
        = (some l, Store.mk [[some "abc"]]) ∧
      l.length = 1 ∧
      ∀ i, i < 1 → l.get? i = some (entryOf (some "syskey") (ExecOut.ok "42" 0)) := by
  obtain ⟨l, h1, h2, h3⟩ := C5_result_per_record "systems" (some "syskey")
    [SqlField.mk 0 "sysid"] [[SqlValue.mk (some 0) "abc"]] (Store.mk [])
    (fun _ => ExecOut.ok "42" 0) (fun _ => ⟨"42", 0, rfl⟩)
  refine ⟨l, ?_, h2, h3⟩
  rw [h1]
  congr 1

/-- C9: on a well-formed document whose record list is empty, the
outcome is decided entirely by preparation: if preparation succeeds
the call returns a success result with the empty list and the store is
untouched; if preparation fails the failure is reported (NULL) even
with zero records; and no statement is ever executed -- the result
does not depend on the execution oracle at all. -/
theorem C9_empty_records (t : String) (key : Option String)
    (fl : List SqlField) (st : Store) (prepOK : Bool)
    (oracle oracle2 : Nat → ExecOut) :
    pgsql_INSERT (SqlData.mk (some t) key (some fl) (some [])) true oracle st
        = (some [], st) ∧
    pgsql_INSERT (SqlData.mk (some t) key (some fl) (some [])) false oracle st
        = (none, st) ∧
    pgsql_INSERT (SqlData.mk (some t) key (some fl) (some [])) prepOK oracle st
        = pgsql_INSERT (SqlData.mk (some t) key (some fl) (some [])) prepOK oracle2 st := by
  refine ⟨by simp [pgsql_INSERT, insertLoop], by simp [pgsql_INSERT], ?_⟩
  cases prepOK <;> simp [pgsql_INSERT, insertLoop]

/-- Helper for the amended C4: once the accepted-value count has passed
fieldcnt the collection loop leaves the array unchanged whatever values
remain. -/
theorem collectLoop_stop (fields : List SqlField) (fieldcnt : Nat)
    (vs : List SqlValue) (i : Nat) (ar : Nat → Option String)
    (h : fieldcnt < i) :
    collectLoop fields fieldcnt vs i ar = ar := by
  cases vs with
  | nil => rfl
  | cons v vs => simp [collectLoop, h]

/-- C4 amended: a value whose fid attribute is absent or negative is
silently skipped by the collection loop (nothing is bound for it, no
failure is raised), the remaining fid values are never checked against
the declared field list, and the statement is still executed for every
record: with preparation and every execution succeeding, the insert
returns a success result whatever fid values the records carry -- no
malformed-input failure arises from a record's fid values. -/
theorem C4_amended_bad_fid_skipped_not_rejected :
    (∀ (fields : List SqlField) (fieldcnt : Nat) (v : SqlValue)
       (vs : List SqlValue) (i : Nat) (ar : Nat → Option String),
       (v.fid = none ∨ ∃ z, v.fid = some z ∧ z < 0) →
       collectLoop fields fieldcnt (v :: vs) i ar = collectLoop fields fieldcnt vs i ar) ∧
    (∀ (t : String) (key : Option String) (fl : List SqlField)
       (recs : List SqlRecord) (st : Store) (oracle : Nat → ExecOut),
       (∀ i, ∃ kv oid, oracle i = ExecOut.ok kv oid) →
       (pgsql_INSERT (SqlData.mk (some t) key (some fl) (some recs))
           true oracle st).fst.isSome = true) := by
  constructor
  · intro fields fieldcnt v vs i ar hfid
    by_cases hlt : fieldcnt < i
    · rw [collectLoop_stop fields fieldcnt (v :: vs) i ar hlt,
          collectLoop_stop fields fieldcnt vs i ar hlt]
    · rcases hfid with hnone | ⟨z, hz, hneg⟩
      · simp [collectLoop, hlt, hnone]
      · simp [collectLoop, hlt, hz, hneg]
  · intro t key fl recs st oracle hok
    obtain ⟨l, h1, _, _⟩ := C5_result_per_record t key fl recs st oracle hok
    rw [h1]
    rfl

/-- Witness for the amended C4 at concrete inputs: a fid-less value is
skipped, and a document whose record carries only that value still
inserts successfully. -/
theorem C4_amended_witness :
    collectLoop [] 0 [SqlValue.mk none "x"] 0 (fun _ => none)
        = collectLoop [] 0 [] 0 (fun _ => none) ∧
    (pgsql_INSERT
        (SqlData.mk (some "t") none (some [SqlField.mk 0 "a"])
          (some [[SqlValue.mk none "x"]]))
        true (fun _ => ExecOut.ok "k" 3) (Store.mk [])).fst.isSome = true := by
  refine ⟨?_, ?_⟩
  · exact C4_amended_bad_fid_skipped_not_rejected.1 [] 0 (SqlValue.mk none "x") [] 0
      (fun _ => none) (Or.inl rfl)
  · exact C4_amended_bad_fid_skipped_not_rejected.2 "t" none [SqlField.mk 0 "a"]
      [[SqlValue.mk none "x"]] (Store.mk []) (fun _ => ExecOut.ok "k" 3)
      (fun _ => ⟨"k", 3, rfl⟩)

/-! Submission queue model.

The STAT_* constants of pgsql.h are embedded as an enumeration; only
their identities matter to the control flow of pgsql.c.  A queue row
carries the submid, filename, status and the two nullable timestamps
parsestart / parseend; NOW() is passed in as an explicit clock
value. -/

inductive SubmStatus where
  | statNew
  | assigned
  | inprog
  | success
  | unknfail
  | xmlfail
  | sysreg
  | gendb
  | rtevruns
  | cyclic
deriving Repr, DecidableEq

structure QRow where
  submid : Nat
  filename : String
  status : SubmStatus
  parsestart : Option Nat
  parseend : Option Nat
deriving Repr, DecidableEq

/-- Embedding of db_update_submissionqueue: the switch selects the SQL
shape by target status -- STAT_NEW (with the default) returns 0 before
any query is issued; STAT_ASSIGNED updates only the status;
STAT_INPROG also sets parsestart to NOW(); every terminal status also
sets parseend to NOW().  dbErr models PQexec returning NULL or a
status other than PGRES_COMMAND_OK, in which case -1 is returned and
the table is unchanged.  A successful UPDATE touches exactly the rows
whose submid matches and returns 1 whether or not any row matched. -/
def db_update_submissionqueue (q : List QRow) (now : Nat) (dbErr : Bool)
    (submid : Nat) (status : SubmStatus) : Int × List QRow :=
  match status with
  | SubmStatus.statNew => (0, q)
  | SubmStatus.assigned =>
    if dbErr then (-1, q)
    else
      (1, q.map (fun r =>
        if r.submid = submid then
          QRow.mk r.submid r.filename SubmStatus.assigned r.parsestart r.parseend
        else r))
  | SubmStatus.inprog =>
    if dbErr then (-1, q)
    else
      (1, q.map (fun r =>
        if r.submid = submid then
          QRow.mk r.submid r.filename SubmStatus.inprog (some now) r.parseend
        else r))
  | st =>
    if dbErr then (-1, q)
    else
      (1, q.map (fun r =>
        if r.submid = submid then
          QRow.mk r.submid r.filename st r.parsestart (some now)
        else r))

/-- The SELECT of db_get_submissionqueue_job: the row of status
STAT_NEW with the lowest submid, when one exists (ORDER BY submid
LIMIT 1). -/
def selectNewJob (q : List QRow) : Option QRow :=
  (q.filter (fun r => r.status == SubmStatus.statNew)).foldl
    (fun acc r =>
      match acc with
      | none => some r
      | some b => if r.submid < b.submid then some r else some b)
    none

/-- Job availability flags of parseJob_t. -/
inductive JobStatus where
  | jbNONE
  | jbAVAIL
deriving Repr, DecidableEq

/-- Result of db_get_submissionqueue_job: failed models the NULL
return; job carries the returned struct's availability flag, submid
and filename (the struct is zero-filled on allocation, so the no-job
case carries 0 and the empty string). -/
inductive JobResult where
  | failed
  | job (status : JobStatus) (submid : Nat) (filename : String)
deriving Repr, DecidableEq

/-- Events of the checkout sequence, in chronological order: the mutex
operations around the SELECT and the status UPDATE. -/
inductive QEvent where
  | lock
  | selectQ
  | updateQ
  | unlock
deriving Repr, DecidableEq

/-- Embedding of db_get_submissionqueue_job: lock the mutex, run the
SELECT (selOK is its server verdict; on failure unlock, free the job
and return NULL), and if a row came back mark it STAT_ASSIGNED through
db_update_submissionqueue before unlocking -- when that update returns
less than 1 the mutex is released and NULL returned, the job not
handed out; with no row the job is returned with the jbNONE flag.  The
third component is the chronological event trace. -/
def db_get_submissionqueue_job (q : List QRow) (now : Nat) (selOK dbErr : Bool) :
    JobResult × List QRow × List QEvent :=
  if selOK then
    match selectNewJob q with
    | some row =>
      let upd := db_update_submissionqueue q now dbErr row.submid SubmStatus.assigned
      if upd.fst < 1 then
        (JobResult.failed, upd.snd, [QEvent.lock, QEvent.selectQ, QEvent.updateQ, QEvent.unlock])
      else
        (JobResult.job JobStatus.jbAVAIL row.submid (row.filename.take 4090), upd.snd,
          [QEvent.lock, QEvent.selectQ, QEvent.updateQ, QEvent.unlock])
    | none =>
      (JobResult.job JobStatus.jbNONE 0 "", q, [QEvent.lock, QEvent.selectQ, QEvent.unlock])
  else (JobResult.failed, q, [QEvent.lock, QEvent.selectQ, QEvent.unlock])

/-- C6: whenever the SELECT finds a STAT_NEW job, the trace is
lock, select, update, unlock -- the mutex is held across the whole
read-then-mark sequence and released afterwards -- and if marking the
job STAT_ASSIGNED fails the call reports failure (NULL) without
returning the job; when no STAT_NEW job exists the call returns the
jbNONE no-job indication, which is distinct from the failure return. -/
theorem C6_checkout_lock_and_failure_paths (q : List QRow) (now : Nat) (dbErr : Bool) :
    (∀ row, selectNewJob q = some row →
      (db_get_submissionqueue_job q now true dbErr).2.2
          = [QEvent.lock, QEvent.selectQ, QEvent.updateQ, QEvent.unlock] ∧
      (dbErr = true → (db_get_submissionqueue_job q now true dbErr).1 = JobResult.failed)) ∧
    (selectNewJob q = none →
      (db_get_submissionqueue_job q now true dbErr).1 = JobResult.job JobStatus.jbNONE 0 "" ∧
      (db_get_submissionqueue_job q now true dbErr).1 ≠ JobResult.failed) := by
  constructor
  · intro row hrow
    cases dbErr with
    | true =>
      constructor
      · norm_num [db_get_submissionqueue_job, hrow, db_update_submissionqueue]
      · intro _
        norm_num [db_get_submissionqueue_job, hrow, db_update_submissionqueue]
    | false =>
      constructor
      · norm_num [db_get_submissionqueue_job, hrow, db_update_submissionqueue]
      · intro h
        cases h
  · intro hnone
    simp [db_get_submissionqueue_job, hnone]

/-- Witness for C6 at concrete inputs: a queue holding one STAT_NEW
row; with a database error the marked-assigned update fails and the
checkout reports failure with the full lock-select-update-unlock
trace, and on the empty queue the no-job indication comes back. -/
theorem C6_checkout_witness :
    ((db_get_submissionqueue_job [QRow.mk 5 "f" SubmStatus.statNew none none] 0 true true).2.2
        = [QEvent.lock, QEvent.selectQ, QEvent.updateQ, QEvent.unlock] ∧
     (db_get_submissionqueue_job [QRow.mk 5 "f" SubmStatus.statNew none none] 0 true true).1
        = JobResult.failed) ∧
    ((db_get_submissionqueue_job [] 0 true false).1 = JobResult.job JobStatus.jbNONE 0 "" ∧
     (db_get_submissionqueue_job [] 0 true false).1 ≠ JobResult.failed) := by
  constructor
  · have h := (C6_checkout_lock_and_failure_paths
      [QRow.mk 5 "f" SubmStatus.statNew none none] 0 true).1
      (QRow.mk 5 "f" SubmStatus.statNew none none) (by decide)
    exact ⟨h.1, h.2 rfl⟩
  · exact (C6_checkout_lock_and_failure_paths [] 0 false).2 (by decide)

/-- C7: a STAT_NEW target is rejected inside the switch: for every
queue state, clock, database behaviour and submission id the function
returns the invalid-status result 0 -- never 1 and never -1 -- and the
queue is untouched, no UPDATE having been issued. -/
theorem C7_update_to_new_rejected (q : List QRow) (now : Nat) (dbErr : Bool)
    (submid : Nat) :
    db_update_submissionqueue q now dbErr submid SubmStatus.statNew = (0, q) := rfl

/-- Helper: an UPDATE whose WHERE clause matches no row leaves the
table unchanged. -/
theorem map_unmatched_id (q : List QRow) (f : QRow → QRow)
    (h : ∀ r, r ∈ q → f r = r) : q.map f = q := by
  induction q with
  | nil => rfl
  | cons r rs ih =>
    simp only [List.map_cons, h r (List.mem_cons_self r rs),
      ih (fun x hx => h x (List.mem_cons_of_mem r hx))]

/-- C10: updating a submission id that has no row in the queue to any
non-STAT_NEW target succeeds -- the function returns 1 although no row
was modified, the table coming back unchanged; the absent job is not
reported as an error. -/
theorem C10_update_missing_row_succeeds (q : List QRow) (now : Nat)
    (submid : Nat) (status : SubmStatus)
    (hmiss : ∀ r, r ∈ q → r.submid ≠ submid)
    (hstat : status ≠ SubmStatus.statNew) :
    db_update_submissionqueue q now false submid status = (1, q) := by
  have key : ∀ (f : QRow → QRow),
      q.map (fun r => if r.submid = submid then f r else r) = q :=
    fun f => map_unmatched_id q _ (fun r hr => by simp [hmiss r hr])
  cases status with
  | statNew => exact absurd rfl hstat
  | assigned => simp [db_update_submissionqueue, key]
  | inprog => simp [db_update_submissionqueue, key]
  | success => simp [db_update_submissionqueue, key]
  | unknfail => simp [db_update_submissionqueue, key]
  | xmlfail => simp [db_update_submissionqueue, key]
  | sysreg => simp [db_update_submissionqueue, key]
  | gendb => simp [db_update_submissionqueue, key]
  | rtevruns => simp [db_update_submissionqueue, key]
  | cyclic => simp [db_update_submissionqueue, key]

/-- Witness for C10 at a concrete input: a one-row queue and a submid
not present in it; the success-status update returns 1 and the queue
is unchanged. -/
theorem C10_update_missing_row_witness :
    db_update_submissionqueue [QRow.mk 1 "f" SubmStatus.inprog (some 2) none] 9 false 7
        SubmStatus.success
      = (1, [QRow.mk 1 "f" SubmStatus.inprog (some 2) none]) := by
  exact C10_update_missing_row_succeeds
    [QRow.mk 1 "f" SubmStatus.inprog (some 2) none] 9 7 SubmStatus.success
    (by decide) (by decide)

/-! System registration model (db_register_system).

The systems and systems_hostname tables are embedded as row lists; the
integer key values travel through the C code as strings returned by
PQgetvalue and read back with atoi_nullsafe, which round-trips for the
integer key columns, so they are kept as integers here.  The SELECT
queries are taken to succeed (their only failure mode is a server
error orthogonal to the claims); the two pgsql_INSERT calls are
abstracted by their result lists, with the corresponding rows appended
to the table exactly when the call succeeds. -/

structure SysRow where
  syskey : Int
  sysid : String
deriving Repr, DecidableEq

structure HostRow where
  syskey : Int
  hostname : String
  ipaddr : String
deriving Repr, DecidableEq

structure SysDB where
  systems : List SysRow
  hostnames : List HostRow
deriving Repr, DecidableEq

/-- External inputs of one db_register_system call: whether
parseToSQLdata produced the systems document, the sysid value
sqldataGetValue extracted (none when missing), the result list of the
pgsql_INSERT on the systems document (none = NULL, one key value per
inserted record), the hostname/ipaddr pair sqldataGetHostInfo produced
(none when it failed), and whether the pgsql_INSERT on the host
document succeeds. -/
structure RegInput where
  sysinfoOK : Bool
  sysid : Option String
  sysInsert : Option (List Int)
  hostinfo : Option (String × String)
  hostInsertOK : Bool
deriving Repr, DecidableEq

/-- The atoi_nullsafe of the val member of an eurephiaVALUES list: the
first value, or 0 when the list is empty (NULL pointer). -/
def headVal : List Int → Int
  | [] => 0
  | v :: _ => v

/-- PQgetvalue(dbres, 0, 0) of a syskey SELECT followed by
atoi_nullsafe: the key of the first row (0 on an empty result, as
atoi_nullsafe maps NULL to 0). -/
def headKey : List SysRow → Int
  | [] => 0
  | r :: _ => r.syskey

/-- Embedding of db_register_system.  After parsing and sysid
extraction, the systems rows matching the (256-byte-truncated) sysid
are counted.  No match: insert the systems record set (its rows are
appended whenever the insert returns non-NULL), require exactly one
result value, take it as syskey, fetch host info and insert the host
binding.  Exactly one match: reuse its syskey, fetch host info, and
insert the host binding only when no systems_hostname row carries the
same (truncated) hostname and ipaddr pair -- the lookup does not
constrain syskey.  More than one match: fail with -1.  The result is
the returned syskey (or -1) together with the database after the
call. -/
def db_register_system (db : SysDB) (inp : RegInput) : Int × SysDB :=
  if inp.sysinfoOK then
    match inp.sysid with
    | none => (-1, db)
    | some sysid =>
      let ms := db.systems.filter (fun r => r.sysid == sysid.take 256)
      if ms.length = 0 then
        match inp.sysInsert with
        | none => (-1, db)
        | some vals =>
          let db1 := SysDB.mk (db.systems ++ vals.map (fun v => SysRow.mk v sysid))
            db.hostnames
          if vals.length ≠ 1 then (-1, db1)
          else
            let syskey := headVal vals
            match inp.hostinfo with
            | none => (-1, db1)
            | some hi =>
              if inp.hostInsertOK then
                (syskey, SysDB.mk db1.systems
                  (db1.hostnames ++ [HostRow.mk syskey hi.1 hi.2]))
              else (-1, db1)
      else if ms.length = 1 then
        let syskey := headKey ms
        match inp.hostinfo with
        | none => (-1, db)
        | some hi =>
          let bound := db.hostnames.filter
            (fun r => r.hostname == hi.1.take 256 && r.ipaddr == hi.2.take 64)
          if bound.length = 0 then
            if inp.hostInsertOK then
              (syskey, SysDB.mk db.systems
                (db.hostnames ++ [HostRow.mk syskey hi.1 hi.2]))
            else (-1, db)
          else (syskey, db)
      else (-1, db)
  else (-1, db)

/-- Database of the C2 counterexample: one system with syskey 1, and a
host binding of the pair (h, i) that belongs to a different syskey
2. -/
def c2db : SysDB := SysDB.mk [SysRow.mk 1 "s"] [HostRow.mk 2 "h" "i"]

/-- Input of the C2 counterexample: a submission for sysid s resolving
to hostname h and address i, whose host insert would succeed if
attempted. -/
def c2inp : RegInput := RegInput.mk true (some "s") none (some ("h", "i")) true

/-- C2 counterexample: the sysid has exactly one systems row (syskey
1) and the pair (h, i) is NOT bound to that syskey -- it belongs to
syskey 2 only -- so the claim demands a new host-binding row; but the
lookup matches the pair regardless of syskey, so registration returns
reusing syskey 1 while the hostname table comes back unchanged and
still holds no (1, h, i) row. -/
theorem C2_counterexample_pair_matched_without_syskey :
    db_register_system c2db c2inp = (1, c2db) ∧
    (HostRow.mk 1 "h" "i") ∉ c2db.hostnames ∧
    ¬ ∃ r ∈ (db_register_system c2db c2inp).2.hostnames, r = HostRow.mk 1 "h" "i" := by
  refine ⟨by decide, by decide, by decide⟩

/-- C2 amended: when the submission's sysid has exactly one systems
row, registration reuses that row's syskey and leaves the systems
table untouched, and it inserts a new host-binding row if and only if
the (hostname, ipaddr) pair is not already present in the host-binding
table under ANY syskey (not merely under the matched one). -/
theorem C2_amended_dedup_by_pair_only (db : SysDB) (inp : RegInput)
    (sid h ip : String) (row : SysRow)
    (hok : inp.sysinfoOK = true) (hsid : inp.sysid = some sid)
    (hmatch : db.systems.filter (fun r => r.sysid == sid.take 256) = [row])
    (hhost : inp.hostinfo = some (h, ip)) (hins : inp.hostInsertOK = true) :
    db_register_system db inp
      = (row.syskey,
         SysDB.mk db.systems
           (if (db.hostnames.filter
                 (fun r => r.hostname == h.take 256 && r.ipaddr == ip.take 64)).length = 0
            then db.hostnames ++ [HostRow.mk row.syskey h ip]
            else db.hostnames)) := by
  by_cases hb : (db.hostnames.filter
      (fun r => r.hostname == h.take 256 && r.ipaddr == ip.take 64)).length = 0
  · simp [db_register_system, hok, hsid, hmatch, hhost, hins, headKey, hb]
  · simp [db_register_system, hok, hsid, hmatch, hhost, hins, headKey, hb]

/-- Witness for the amended C2 at a concrete input: the pair is new,
so the host-binding row is appended under the reused syskey while the
systems table is untouched. -/
theorem C2_amended_witness :
    db_register_system (SysDB.mk [SysRow.mk 1 "s"] [])
        (RegInput.mk true (some "s") none (some ("h", "i")) true)
      = (1, SysDB.mk [SysRow.mk 1 "s"]
           (if (([] : List HostRow).filter
                 (fun r => r.hostname == "h".take 256 && r.ipaddr == "i".take 64)).length = 0
            then [] ++ [HostRow.mk 1 "h" "i"]
            else [])) := by
  exact C2_amended_dedup_by_pair_only (SysDB.mk [SysRow.mk 1 "s"] [])
    (RegInput.mk true (some "s") none (some ("h", "i")) true)
    "s" "h" "i" (SysRow.mk 1 "s") rfl rfl (by decide) rfl rfl

/-! Run registration model (db_register_rtevalrun). -/

/-- External inputs of one db_register_rtevalrun call: whether each of
the two parseToSQLdata calls produced a document, and the result list
of each pgsql_INSERT (none = NULL; the rtevalruns result values are
the RETURNING rterid values read back through atoi_nullsafe, kept as
integers). -/
structure RunInput where
  runParse : Bool
  runInsert : Option (List Int)
  detParse : Bool
  detInsert : Option (List Int)
deriving Repr, DecidableEq

/-- Embedding of db_register_rtevalrun.  The second component records,
in order, the result of every pgsql_INSERT that was actually executed
(none for a NULL return).  The rtevalruns insert must succeed with
exactly one result whose value is at least 1; then the
rtevalruns_details document is parsed and inserted and must also yield
exactly one result; any shortfall returns -1. -/
def db_register_rtevalrun (inp : RunInput) : Int × List (Option (List Int)) :=
  if inp.runParse then
    match inp.runInsert with
    | none => (-1, [none])
    | some l1 =>
      if l1.length ≠ 1 then (-1, [some l1])
      else
        let rterid := headVal l1
        if rterid < 1 then (-1, [some l1])
        else if inp.detParse then
          match inp.detInsert with
          | none => (-1, [some l1, none])
          | some l2 =>
            if l2.length ≠ 1 then (-1, [some l1, some l2])
            else (rterid, [some l1, some l2])
        else (-1, [some l1])
  else (-1, [])

/-- C8: run registration returns a positive rterid exactly when both
the rtevalruns insert and the subsequent rtevalruns_details insert
were executed and each yielded exactly one result record; and whenever
an executed insert failed or yielded a result count different from
one, the phase fails with -1. -/
theorem C8_run_registration_single_record (inp : RunInput) :
    (0 < (db_register_rtevalrun inp).1 ↔
      ∃ l1 l2, (db_register_rtevalrun inp).2 = [some l1, some l2] ∧
        l1.length = 1 ∧ l2.length = 1) ∧
    (∀ r, r ∈ (db_register_rtevalrun inp).2 →
      (r = none ∨ ∃ l, r = some l ∧ l.length ≠ 1) →
      (db_register_rtevalrun inp).1 = -1) := by
  obtain ⟨rp, ri, dp, di⟩ := inp
  cases rp with
  | false =>
    have hres : db_register_rtevalrun (RunInput.mk false ri dp di) = (-1, []) := by
      simp [db_register_rtevalrun]
    rw [hres]
    constructor
    · norm_num
      intro x y hxy
      exact absurd hxy (List.cons_ne_nil _ _)
    · intro r hr _
      simp at hr
  | true =>
    cases ri with
    | none =>
      have hres : db_register_rtevalrun (RunInput.mk true none dp di) = (-1, [none]) := by
        simp [db_register_rtevalrun]
      rw [hres]
      constructor
      · norm_num
      · intro r _ _
        norm_num
    | some l1 =>
      by_cases h1 : l1.length = 1
      · by_cases hid : headVal l1 < 1
        · have hres : db_register_rtevalrun (RunInput.mk true (some l1) dp di)
              = (-1, [some l1]) := by
            simp [db_register_rtevalrun, h1, hid]
          rw [hres]
          constructor
          · norm_num
          · intro r _ _
            norm_num
        · cases dp with
          | false =>
            have hres : db_register_rtevalrun (RunInput.mk true (some l1) false di)
                = (-1, [some l1]) := by
              simp [db_register_rtevalrun, h1, hid]
            rw [hres]
            constructor
            · norm_num
            · intro r _ _
              norm_num
          | true =>
            cases di with
            | none =>
              have hres : db_register_rtevalrun (RunInput.mk true (some l1) true none)
                  = (-1, [some l1, none]) := by
                simp [db_register_rtevalrun, h1, hid]
              rw [hres]
              constructor
              · norm_num
                intro x y _ hy
                cases hy
              · intro r _ _
                norm_num
            | some l2 =>
              by_cases h2 : l2.length = 1
              · have hres : db_register_rtevalrun (RunInput.mk true (some l1) true (some l2))
                    = (headVal l1, [some l1, some l2]) := by
                  simp [db_register_rtevalrun, h1, h2, hid]
                rw [hres]
                constructor
                · constructor
                  · intro _
                    exact ⟨l1, l2, rfl, h1, h2⟩
                  · intro _
                    omega
                · intro r hr hbad
                  exfalso
                  simp only at hr
                  rcases hbad with hb | ⟨l, hl, hlen⟩
                  · subst hb
                    simp at hr
                  · subst hl
                    simp at hr
                    rcases hr with hx | hx <;> subst hx
                    · exact hlen h1
                    · exact hlen h2
              · have hres : db_register_rtevalrun (RunInput.mk true (some l1) true (some l2))
                    = (-1, [some l1, some l2]) := by
                  simp [db_register_rtevalrun, h1, h2, hid]
                rw [hres]
                constructor
                · norm_num
                  intro _ hx2
                  exact h2 hx2
                · intro r _ _
                  norm_num
      · have hres : db_register_rtevalrun (RunInput.mk true (some l1) dp di)
            = (-1, [some l1]) := by
          simp [db_register_rtevalrun, h1]
        rw [hres]
        constructor
        · norm_num
        · intro r _ _
          norm_num

/-- Witness for C8 at a concrete input: both parses succeed and both
inserts return exactly one record, the first with key value 5; the
call returns a positive rterid. -/
theorem C8_run_registration_witness :
    0 < (db_register_rtevalrun (RunInput.mk true (some [5]) true (some [7]))).1 := by
  exact (C8_run_registration_single_record
    (RunInput.mk true (some [5]) true (some [7]))).1.mpr
    ⟨[5], [7], by decide, rfl, rfl⟩

end RtevalPgsql
